import Mathlib

/-!
Shallow embedding of `Source/WTF/wtf/ContinuousArenaMalloc.cpp` (the
continuous-arena jemalloc extent hooks) for the non-capability build:
the `__CHERI_PURE_CAPABILITY__` blocks are compile-time optional and reduce
to no-ops on platforms without capability hardware, so the representability
widening is the identity here.

Addresses (`uintptr_t`, `char *`) and sizes (`size_t`) are modelled as `Nat`
with explicit reduction modulo `2 ^ 64` wherever the C code's unsigned or
pointer arithmetic can wrap.  The process-wide statics `s_Start`, `s_End`,
`s_Current` together with the protection state of each byte of the reserved
window form the explicit state record; each hook is a function from that
state (plus its C arguments) to its results and the new state.  The one
OS call whose failure the code handles (`mmap` inside `extentAlloc`) is
modelled by a boolean oracle argument `mmapOk`; the `mmap` calls in
`extentDestroy` / `extentPurgeCommon` have their success asserted fatally
by the code, so they are modelled as succeeding.
-/

namespace ContinuousArenaMalloc

/-- Modulus of `uintptr_t` / `size_t` / `char *` arithmetic on the 64-bit
platforms this file targets. -/
def ptrMod : Nat := 2 ^ 64

/-- Protection state of one byte of the reserved window: `guard` is a
no-access, no-backing guard mapping (`PROT_NONE | MAP_GUARD`), `rw` is
read+write anonymous backing (`PROT_READ | PROT_WRITE | MAP_ANON`). -/
inductive PageProt where
  | guard
  | rw
deriving DecidableEq

/-- The component's process-wide singleton state: the statics
`s_Start`, `s_End`, `s_Current` of `ContinuousArenaMalloc` and the
per-byte protection of the address space. -/
structure ArenaState where
  s_Start : Nat
  s_End : Nat
  s_Current : Nat
  prot : Nat → PageProt

/-- Effect on the protection map of a successful fixed-address `mmap`
covering `[a, a + n)` with protection `p`. -/
def mmapFixed (f : Nat → PageProt) (a n : Nat) (p : PageProt) : Nat → PageProt :=
  fun x => if a ≤ x ∧ x < a + n then p else f x

/-- State established by `initialize()` (lines 59-71): a window of
`areaSize` bytes reserved as a guard mapping at `base`;
`s_Start = base`, `s_End = base + areaSize`, `s_Current = base`. -/
def initState (base areaSize : Nat) : ArenaState :=
  { s_Start := base
    s_End := base + areaSize
    s_Current := base
    prot := fun _ => PageProt.guard }

/-- `isValidRange(addr, size)` (lines 167-195): computes
`end = start + size` in `uintptr_t` arithmetic, fails on wraparound
(`end < start`), and otherwise checks that both `start` and `end` lie in
`[s_Start, s_End]`. -/
def isValidRange (s : ArenaState) (addr size : Nat) : Bool :=
  let start := addr
  let end_ := (start + size) % ptrMod
  if end_ < start then
    false
  else
    decide (start ≥ s.s_Start) && decide (start ≤ s.s_End) &&
      decide (end_ ≥ s.s_Start) && decide (end_ ≤ s.s_End)

/-- `isAllocatedRange(addr, size)` (lines 197-200):
`isValidRange(addr, size) && (addr + size <= s_Current)`, the pointer
addition taken modulo `2 ^ 64`. -/
def isAllocatedRange (s : ArenaState) (addr size : Nat) : Bool :=
  isValidRange s addr size && decide ((addr + size) % ptrMod ≤ s.s_Current)

/-- `isAvailableRange(addr, size)` (lines 202-205):
`isValidRange(addr, size) && (addr >= s_Current)`. -/
def isAvailableRange (s : ArenaState) (addr size : Nat) : Bool :=
  isValidRange s addr size && decide (addr ≥ s.s_Current)

/-- `__builtin_align_up(x, a)` for the power-of-two alignment the code
asserts (`ASSERT(hasOneBitSet(alignment))`): rounds `x` up to the next
multiple of `a`, i.e. `(x + a - 1) & -a` in `uintptr_t` arithmetic, which
for a power of two `a` equals clearing the low bits of `(x + a - 1) mod 2^64`. -/
def align_up (x a : Nat) : Nat :=
  (x + a - 1) % ptrMod / a * a

/-- Results of the `extentAlloc` hook: the returned address (`none` for
`NULL`), the state after the call, and the final values of the `*zero`
and `*commit` out-parameters. -/
structure AllocResult where
  ret : Option Nat
  state : ArenaState
  zero : Bool
  commit : Bool

/-- `extentAlloc` (lines 207-280), non-capability build.  `new_addr` is the
requested fixed address (`none` for `NULL`), `zero` / `commit` are the
incoming values of the out-parameters, and `mmapOk` tells whether the
`mmap` call at lines 252-256 succeeds. -/
def extentAlloc (s : ArenaState) (new_addr : Option Nat) (size alignment : Nat)
    (zero commit : Bool) (mmapOk : Bool) : AllocResult :=
  if new_addr ≠ none ∨ size = 0 then
    { ret := none, state := s, zero := zero, commit := commit }
  else
    let start := align_up s.s_Current alignment
    if isAvailableRange s start size then
      if mmapOk then
        { ret := some start
          state :=
            { s with
              s_Current := (start + size) % ptrMod
              prot := mmapFixed s.prot start size PageProt.rw }
          zero := true
          commit := true }
      else
        { ret := none, state := s, zero := zero, commit := commit }
    else
      { ret := none, state := s, zero := zero, commit := commit }

/-- `extentDestroy` (lines 282-302): re-maps `[addr, addr + size)` to the
no-access guard state; touches neither `s_Start`, `s_End` nor `s_Current`.
The `committed` argument is unused by the body (it is only logged). -/
def extentDestroy (s : ArenaState) (addr size : Nat) (committed : Bool) : ArenaState :=
  { s with prot := mmapFixed s.prot addr size PageProt.guard }

/-- `extentPurgeCommon` (lines 304-331): re-maps
`[addr + offset, addr + offset + length)` with fresh read+write backing and
returns `false` (jemalloc's "purge succeeded").  `size` only appears in the
assertions, which are modelled as theorem hypotheses. -/
def extentPurgeCommon (s : ArenaState) (addr size offset length : Nat) :
    Bool × ArenaState :=
  let start := (addr + offset) % ptrMod
  (false, { s with prot := mmapFixed s.prot start length PageProt.rw })

/-- `extentPurgeLazy` (lines 333-352): "For simplicity, just force all
purges" — delegates to `extentPurgeCommon`. -/
def extentPurgeLazy (s : ArenaState) (addr size offset length : Nat) :
    Bool × ArenaState :=
  extentPurgeCommon s addr size offset length

/-- `extentPurgeForced` (lines 354-372): delegates to `extentPurgeCommon`. -/
def extentPurgeForced (s : ArenaState) (addr size offset length : Nat) :
    Bool × ArenaState :=
  extentPurgeCommon s addr size offset length

/-- One invocation of any of the four registered hooks, with its C
arguments (and, for `alloc`, the `mmap` oracle). -/
inductive HookCall where
  | alloc (new_addr : Option Nat) (size alignment : Nat) (zero commit mmapOk : Bool)
  | destroy (addr size : Nat) (committed : Bool)
  | purgeLazy (addr size offset length : Nat)
  | purgeForced (addr size offset length : Nat)

/-- State transition of a single hook invocation. -/
def step (s : ArenaState) (c : HookCall) : ArenaState :=
  match c with
  | .alloc na sz al z cm m => (extentAlloc s na sz al z cm m).state
  | .destroy a sz cm => extentDestroy s a sz cm
  | .purgeLazy a sz o l => (extentPurgeLazy s a sz o l).2
  | .purgeForced a sz o l => (extentPurgeForced s a sz o l).2

/-- Whether a hook invocation is an allocation. -/
def isAllocCall : HookCall → Bool
  | .alloc _ _ _ _ _ _ => true
  | _ => false

/-- State after a sequence of hook invocations (the mutex serialises the
hooks, so any interleaving is some such sequence). -/
def runHooks (s : ArenaState) (cs : List HookCall) : ArenaState :=
  cs.foldl step s

/-- The invariant the code asserts on entry to `isValidRange`
(lines 171-173) together with the `uintptr_t` bound on `s_End`. -/
def WF (s : ArenaState) : Prop :=
  s.s_Start ≤ s.s_Current ∧ s.s_Current ≤ s.s_End ∧ s.s_End < ptrMod

/-- Concrete state used by the witnesses: a 64 KiB window at base 0 with
the first 8 KiB already handed out. -/
def demoState : ArenaState :=
  { s_Start := 0
    s_End := 65536
    s_Current := 8192
    prot := fun _ => PageProt.rw }

/-! ### Helper lemmas -/

/-- Numeric value of the pointer modulus. -/
lemma ptrMod_eq : ptrMod = 18446744073709551616 := by norm_num [ptrMod]

/-- `align_up` always produces a value that fits in a `uintptr_t`. -/
lemma align_up_lt (x a : Nat) : align_up x a < ptrMod := by
  have h1 : (x + a - 1) % ptrMod / a * a ≤ (x + a - 1) % ptrMod :=
    Nat.div_mul_le_self _ _
  have h2 : (x + a - 1) % ptrMod < ptrMod :=
    Nat.mod_lt _ (by rw [ptrMod_eq]; omega)
  exact lt_of_le_of_lt h1 h2

/-- Characterisation of `isValidRange` for in-range `uintptr_t` inputs. -/
lemma valid_iff (s : ArenaState) (addr size : Nat)
    (haddr : addr < ptrMod) (hsize : size < ptrMod) :
    isValidRange s addr size = true ↔
      addr + size < ptrMod ∧ s.s_Start ≤ addr ∧ addr ≤ s.s_End ∧
        s.s_Start ≤ addr + size ∧ addr + size ≤ s.s_End := by
  rw [ptrMod_eq] at haddr hsize
  simp only [isValidRange, ptrMod_eq, ge_iff_le]
  split
  · next h => simp only [Bool.false_eq_true, false_iff]; omega
  · next h => simp only [Bool.and_eq_true, decide_eq_true_eq]; omega

/-- Bounds that hold whenever `isValidRange` accepts, with no side
condition on `addr` or `size`. -/
lemma valid_bounds (s : ArenaState) (addr size : Nat)
    (h : isValidRange s addr size = true) :
    s.s_Start ≤ addr ∧ addr ≤ (addr + size) % ptrMod ∧
      (addr + size) % ptrMod ≤ s.s_End := by
  simp only [isValidRange, ge_iff_le] at h
  split at h
  · exact absurd h (by simp)
  · next hnw =>
    simp only [Bool.and_eq_true, decide_eq_true_eq] at h
    omega

/-- Unfolding of `isAvailableRange` into its two conjuncts. -/
lemma available_iff (s : ArenaState) (addr size : Nat) :
    isAvailableRange s addr size = true ↔
      isValidRange s addr size = true ∧ s.s_Current ≤ addr := by
  simp [isAvailableRange]

/-! ### Claim theorems -/

/-- C4: for `uintptr_t` inputs, `isValidRange(addr, size)` returns true iff
the unsigned computation `addr + size` does not wrap modulo `2 ^ 64` and
both `addr` and `addr + size` lie within `[s_Start, s_End]`, inclusive of
both endpoints. -/
theorem isValidRange_spec (s : ArenaState) (addr size : Nat)
    (haddr : addr < ptrMod) (hsize : size < ptrMod) :
    isValidRange s addr size = true ↔
      addr + size < ptrMod ∧
        (s.s_Start ≤ addr ∧ addr ≤ s.s_End) ∧
        (s.s_Start ≤ addr + size ∧ addr + size ≤ s.s_End) := by
  rw [valid_iff s addr size haddr hsize]
  tauto

/-- Witness for C4 at a concrete state and range. -/
theorem isValidRange_spec_witness :
    (8192 : Nat) < ptrMod ∧ (4096 : Nat) < ptrMod ∧
      (isValidRange demoState 8192 4096 = true ↔
        8192 + 4096 < ptrMod ∧
          (demoState.s_Start ≤ 8192 ∧ 8192 ≤ demoState.s_End) ∧
          (demoState.s_Start ≤ 8192 + 4096 ∧ 8192 + 4096 ≤ demoState.s_End)) :=
  ⟨by decide, by decide, isValidRange_spec demoState 8192 4096 (by decide) (by decide)⟩

/-- C5: `isAllocatedRange(addr, size)` holds iff the range is valid and ends
at or before the cursor, and `isAvailableRange(addr, size)` holds iff the
range is valid and starts at or after the cursor. -/
theorem allocated_available_spec (s : ArenaState) (addr size : Nat)
    (haddr : addr < ptrMod) (hsize : size < ptrMod) :
    (isAllocatedRange s addr size = true ↔
      isValidRange s addr size = true ∧ addr + size ≤ s.s_Current) ∧
    (isAvailableRange s addr size = true ↔
      isValidRange s addr size = true ∧ addr ≥ s.s_Current) := by
  constructor
  · simp only [isAllocatedRange, Bool.and_eq_true, decide_eq_true_eq]
    constructor
    · rintro ⟨hv, hle⟩
      have hnw := ((valid_iff s addr size haddr hsize).mp hv).1
      rw [Nat.mod_eq_of_lt hnw] at hle
      exact ⟨hv, hle⟩
    · rintro ⟨hv, hle⟩
      have hnw := ((valid_iff s addr size haddr hsize).mp hv).1
      exact ⟨hv, by rw [Nat.mod_eq_of_lt hnw]; exact hle⟩
  · simp [isAvailableRange, ge_iff_le]

/-- Witness for C5 at a concrete state and range. -/
theorem allocated_available_spec_witness :
    (4096 : Nat) < ptrMod ∧ (4096 : Nat) < ptrMod ∧
      ((isAllocatedRange demoState 4096 4096 = true ↔
        isValidRange demoState 4096 4096 = true ∧ 4096 + 4096 ≤ demoState.s_Current) ∧
      (isAvailableRange demoState 4096 4096 = true ↔
        isValidRange demoState 4096 4096 = true ∧ 4096 ≥ demoState.s_Current)) :=
  ⟨by decide, by decide, allocated_available_spec demoState 4096 4096 (by decide) (by decide)⟩

/-- C10: a non-empty range is never simultaneously inside the allocated
portion and inside the available portion. -/
theorem allocated_available_disjoint (s : ArenaState) (addr size : Nat)
    (hpos : 0 < size) (hsize : size < ptrMod) :
    ¬(isAllocatedRange s addr size = true ∧ isAvailableRange s addr size = true) := by
  rintro ⟨hal, hav⟩
  simp only [isAllocatedRange, isAvailableRange, Bool.and_eq_true,
    decide_eq_true_eq, ge_iff_le] at hal hav
  obtain ⟨hv, hle⟩ := hal
  obtain ⟨-, hge⟩ := hav
  have hb := valid_bounds s addr size hv
  rw [ptrMod_eq] at hle hb hsize
  omega

/-- Witness for C10 at a concrete state and range. -/
theorem allocated_available_disjoint_witness :
    (0 : Nat) < 4096 ∧ (4096 : Nat) < ptrMod ∧
      ¬(isAllocatedRange demoState 4096 4096 = true ∧
        isAvailableRange demoState 4096 4096 = true) :=
  ⟨by decide, by decide, allocated_available_disjoint demoState 4096 4096 (by decide) (by decide)⟩

/-- C8: `extentDestroy` on an allocated sub-range leaves the bump cursor
and both window bounds unchanged. -/
theorem extentDestroy_frame (s : ArenaState) (addr size : Nat) (committed : Bool)
    (h : isAllocatedRange s addr size = true) :
    (extentDestroy s addr size committed).s_Current = s.s_Current ∧
      (extentDestroy s addr size committed).s_Start = s.s_Start ∧
      (extentDestroy s addr size committed).s_End = s.s_End :=
  ⟨rfl, rfl, rfl⟩

/-- Witness for C8 at a concrete state and range. -/
theorem extentDestroy_frame_witness :
    isAllocatedRange demoState 0 4096 = true ∧
      ((extentDestroy demoState 0 4096 true).s_Current = demoState.s_Current ∧
        (extentDestroy demoState 0 4096 true).s_Start = demoState.s_Start ∧
        (extentDestroy demoState 0 4096 true).s_End = demoState.s_End) :=
  ⟨by decide, extentDestroy_frame demoState 0 4096 true (by decide)⟩

/-- C6: on inputs satisfying the purge preconditions, the lazy and forced
purge hooks perform the identical operation with identical result and state
change, and both return `false`, the status that tells jemalloc the purge
fully succeeded. -/
theorem extentPurge_equiv (s : ArenaState) (addr size offset length : Nat)
    (h1 : offset ≤ size) (h2 : offset + length ≤ size)
    (h3 : isAllocatedRange s addr size = true)
    (h4 : isAllocatedRange s ((addr + offset) % ptrMod) length = true) :
    extentPurgeLazy s addr size offset length =
        extentPurgeForced s addr size offset length ∧
      (extentPurgeLazy s addr size offset length).1 = false :=
  ⟨rfl, rfl⟩

/-- Witness for C6 at a concrete state and sub-range. -/
theorem extentPurge_equiv_witness :
    (1024 : Nat) ≤ 4096 ∧ (1024 : Nat) + 1024 ≤ 4096 ∧
      isAllocatedRange demoState 0 4096 = true ∧
      isAllocatedRange demoState ((0 + 1024) % ptrMod) 1024 = true ∧
      (extentPurgeLazy demoState 0 4096 1024 1024 =
          extentPurgeForced demoState 0 4096 1024 1024 ∧
        (extentPurgeLazy demoState 0 4096 1024 1024).1 = false) :=
  ⟨by decide, by decide, by decide, by decide,
    extentPurge_equiv demoState 0 4096 1024 1024
      (by decide) (by decide) (by decide) (by decide)⟩

/-- C9: whenever `extentAlloc` returns `NULL`, the `*zero` and `*commit`
out-parameters keep the values the caller passed in; they are written only
on the success path. -/
theorem extentAlloc_failure_outparams (s : ArenaState) (new_addr : Option Nat)
    (size alignment : Nat) (zero commit mmapOk : Bool)
    (h : (extentAlloc s new_addr size alignment zero commit mmapOk).ret = none) :
    (extentAlloc s new_addr size alignment zero commit mmapOk).zero = zero ∧
      (extentAlloc s new_addr size alignment zero commit mmapOk).commit = commit := by
  by_cases h0 : new_addr ≠ none ∨ size = 0
  · simp [extentAlloc, h0]
  · by_cases h1 : isAvailableRange s (align_up s.s_Current alignment) size = true
    · by_cases h2 : mmapOk = true
      · simp [extentAlloc, h0, h1, h2] at h
      · simp [extentAlloc, h0, h1, h2]
    · simp [extentAlloc, h0, h1]

/-- Witness for C9: a fixed-address request fails and keeps the
out-parameters. -/
theorem extentAlloc_failure_outparams_witness :
    (extentAlloc demoState (some 0) 16 16 true false true).ret = none ∧
      ((extentAlloc demoState (some 0) 16 16 true false true).zero = true ∧
        (extentAlloc demoState (some 0) 16 16 true false true).commit = false) :=
  ⟨by decide, extentAlloc_failure_outparams demoState (some 0) 16 16 true false true (by decide)⟩

/-- C3: `extentAlloc` returns `NULL` and mutates no state of the component
(cursor, bounds, mappings, out-parameters) whenever a fixed address is
requested, the size is zero, the aligned candidate is not an available
range, or the `mmap` call fails. -/
theorem extentAlloc_failure_frame (s : ArenaState) (new_addr : Option Nat)
    (size alignment : Nat) (zero commit mmapOk : Bool)
    (h : new_addr ≠ none ∨ size = 0 ∨
        isAvailableRange s (align_up s.s_Current alignment) size = false ∨
        mmapOk = false) :
    (extentAlloc s new_addr size alignment zero commit mmapOk).ret = none ∧
      (extentAlloc s new_addr size alignment zero commit mmapOk).state = s ∧
      (extentAlloc s new_addr size alignment zero commit mmapOk).zero = zero ∧
      (extentAlloc s new_addr size alignment zero commit mmapOk).commit = commit := by
  by_cases h0 : new_addr ≠ none ∨ size = 0
  · simp [extentAlloc, h0]
  · by_cases h1 : isAvailableRange s (align_up s.s_Current alignment) size = true
    · have hm : mmapOk = false := by
        rcases h with h | h | h | h
        · exact absurd (Or.inl h) h0
        · exact absurd (Or.inr h) h0
        · rw [h1] at h
          exact absurd h (by simp)
        · exact h
      simp [extentAlloc, h0, h1, hm]
    · simp [extentAlloc, h0, h1]

/-- Witness for C3: a fixed-address request fails without any mutation. -/
theorem extentAlloc_failure_frame_witness :
    (some 0 ≠ (none : Option Nat) ∨ (16 : Nat) = 0 ∨
        isAvailableRange demoState (align_up demoState.s_Current 16) 16 = false ∨
        true = false) ∧
      ((extentAlloc demoState (some 0) 16 16 false true true).ret = none ∧
        (extentAlloc demoState (some 0) 16 16 false true true).state = demoState ∧
        (extentAlloc demoState (some 0) 16 16 false true true).zero = false ∧
        (extentAlloc demoState (some 0) 16 16 false true true).commit = true) :=
  ⟨Or.inl (by decide),
    extentAlloc_failure_frame demoState (some 0) 16 16 false true true (Or.inl (by decide))⟩

/-- C1: every successful `extentAlloc` returns the entry cursor aligned up
to the alignment (unchanged by capability widening in this build), a range
contained in the reserved window, sets both out-parameters to `true`, and
advances the cursor to exactly `addr + size`. -/
theorem extentAlloc_success_spec (s : ArenaState) (new_addr : Option Nat)
    (size alignment : Nat) (zero commit mmapOk : Bool) (a : Nat)
    (halign : ∃ j, alignment = 2 ^ j) (hsize : size < ptrMod)
    (h : (extentAlloc s new_addr size alignment zero commit mmapOk).ret = some a) :
    a = align_up s.s_Current alignment ∧
      s.s_Start ≤ a ∧ a + size ≤ s.s_End ∧
      (extentAlloc s new_addr size alignment zero commit mmapOk).zero = true ∧
      (extentAlloc s new_addr size alignment zero commit mmapOk).commit = true ∧
      (extentAlloc s new_addr size alignment zero commit mmapOk).state.s_Current
        = a + size := by
  by_cases h0 : new_addr ≠ none ∨ size = 0
  · simp [extentAlloc, h0] at h
  · by_cases h1 : isAvailableRange s (align_up s.s_Current alignment) size = true
    · by_cases h2 : mmapOk = true
      · obtain ⟨hv, hcur⟩ := (available_iff s (align_up s.s_Current alignment) size).mp h1
        have hb := valid_bounds s (align_up s.s_Current alignment) size hv
        have hlt := align_up_lt s.s_Current alignment
        have hnw : align_up s.s_Current alignment + size < ptrMod := by
          rw [ptrMod_eq] at hb hlt hsize ⊢
          omega
        simp [extentAlloc, h0, h1, h2] at h ⊢
        subst h
        rw [ptrMod_eq] at hb hnw ⊢
        refine ⟨rfl, hb.1, ?_, ?_⟩ <;> omega
      · simp [extentAlloc, h0, h1, h2] at h
    · simp [extentAlloc, h0, h1] at h

/-- Witness for C1: a successful allocation from `demoState`. -/
theorem extentAlloc_success_spec_witness :
    (4096 : Nat) = 2 ^ 12 ∧ (4096 : Nat) < ptrMod ∧
      (extentAlloc demoState none 4096 4096 false false true).ret = some 8192 ∧
      (8192 = align_up demoState.s_Current 4096 ∧
        demoState.s_Start ≤ 8192 ∧ 8192 + 4096 ≤ demoState.s_End ∧
        (extentAlloc demoState none 4096 4096 false false true).zero = true ∧
        (extentAlloc demoState none 4096 4096 false false true).commit = true ∧
        (extentAlloc demoState none 4096 4096 false false true).state.s_Current
          = 8192 + 4096) :=
  ⟨by norm_num, by decide, by decide,
    extentAlloc_success_spec demoState none 4096 4096 false false true 8192
      ⟨12, by norm_num⟩ (by decide) (by decide)⟩

/-- Any single hook invocation preserves the window invariant, never
decreases the cursor, and never changes the window bounds. -/
lemma step_mono (s : ArenaState) (c : HookCall) (hwf : WF s) :
    WF (step s c) ∧ s.s_Current ≤ (step s c).s_Current ∧
      (step s c).s_Start = s.s_Start ∧ (step s c).s_End = s.s_End := by
  obtain ⟨hw1, hw2, hw3⟩ := hwf
  cases c with
  | alloc na sz al z cm m =>
    by_cases h0 : na ≠ none ∨ sz = 0
    · have hs : step s (.alloc na sz al z cm m) = s := by simp [step, extentAlloc, h0]
      rw [hs]
      exact ⟨⟨hw1, hw2, hw3⟩, le_refl _, rfl, rfl⟩
    · by_cases h1 : isAvailableRange s (align_up s.s_Current al) sz = true
      · by_cases h2 : m = true
        · obtain ⟨hv, hcur⟩ := (available_iff s (align_up s.s_Current al) sz).mp h1
          have hb := valid_bounds s (align_up s.s_Current al) sz hv
          have hs : step s (.alloc na sz al z cm m) =
              { s with
                s_Current := (align_up s.s_Current al + sz) % ptrMod
                prot := mmapFixed s.prot (align_up s.s_Current al) sz PageProt.rw } := by
            simp [step, extentAlloc, h0, h1, h2]
          rw [hs]
          refine ⟨⟨?_, ?_, hw3⟩, ?_, rfl, rfl⟩ <;>
            simp only [] <;> omega
        · have hs : step s (.alloc na sz al z cm m) = s := by
            simp [step, extentAlloc, h0, h1, h2]
          rw [hs]
          exact ⟨⟨hw1, hw2, hw3⟩, le_refl _, rfl, rfl⟩
      · have hs : step s (.alloc na sz al z cm m) = s := by
          simp [step, extentAlloc, h0, h1]
        rw [hs]
        exact ⟨⟨hw1, hw2, hw3⟩, le_refl _, rfl, rfl⟩
  | destroy a sz cm =>
    exact ⟨⟨hw1, hw2, hw3⟩, le_refl _, rfl, rfl⟩
  | purgeLazy a sz o l =>
    exact ⟨⟨hw1, hw2, hw3⟩, le_refl _, rfl, rfl⟩
  | purgeForced a sz o l =>
    exact ⟨⟨hw1, hw2, hw3⟩, le_refl _, rfl, rfl⟩

/-- A whole sequence of hook invocations preserves the invariant, never
decreases the cursor, and never changes the window bounds. -/
lemma runHooks_mono (cs : List HookCall) :
    ∀ s : ArenaState, WF s →
      WF (runHooks s cs) ∧ s.s_Current ≤ (runHooks s cs).s_Current ∧
        (runHooks s cs).s_Start = s.s_Start ∧ (runHooks s cs).s_End = s.s_End := by
  induction cs with
  | nil => exact fun s hwf => ⟨hwf, le_refl _, rfl, rfl⟩
  | cons c cs ih =>
    intro s hwf
    obtain ⟨hw, hle, hst, hen⟩ := step_mono s c hwf
    obtain ⟨ihw, ihle, ihst, ihen⟩ := ih (step s c) hw
    have hr : runHooks s (c :: cs) = runHooks (step s c) cs := rfl
    rw [hr]
    exact ⟨ihw, le_trans hle ihle, by rw [ihst, hst], by rw [ihen, hen]⟩

/-- C2: across any sequence of hook invocations from a well-formed state
the bump cursor is monotonically non-decreasing and always satisfies
`s_Start ≤ s_Current ≤ s_End` (for the unchanged window bounds), and no
hook other than the allocation hook ever changes the cursor. -/
theorem cursor_monotone (s : ArenaState) (cs : List HookCall) (hwf : WF s) :
    (WF (runHooks s cs) ∧ s.s_Current ≤ (runHooks s cs).s_Current ∧
      (runHooks s cs).s_Start = s.s_Start ∧ (runHooks s cs).s_End = s.s_End) ∧
    ∀ c, isAllocCall c = false → (step s c).s_Current = s.s_Current := by
  refine ⟨runHooks_mono cs s hwf, ?_⟩
  intro c hc
  cases c with
  | alloc na sz al z cm m => simp [isAllocCall] at hc
  | destroy a sz cm => rfl
  | purgeLazy a sz o l => rfl
  | purgeForced a sz o l => rfl

/-- Witness for C2: a concrete two-hook sequence from `demoState`. -/
theorem cursor_monotone_witness :
    WF demoState ∧
      ((WF (runHooks demoState
          [HookCall.alloc none 4096 4096 false false true,
            HookCall.destroy 0 4096 true]) ∧
        demoState.s_Current ≤ (runHooks demoState
          [HookCall.alloc none 4096 4096 false false true,
            HookCall.destroy 0 4096 true]).s_Current ∧
        (runHooks demoState
          [HookCall.alloc none 4096 4096 false false true,
            HookCall.destroy 0 4096 true]).s_Start = demoState.s_Start ∧
        (runHooks demoState
          [HookCall.alloc none 4096 4096 false false true,
            HookCall.destroy 0 4096 true]).s_End = demoState.s_End) ∧
      ∀ c, isAllocCall c = false →
        (step demoState c).s_Current = demoState.s_Current) :=
  ⟨⟨by decide, by decide, by decide⟩,
    cursor_monotone demoState
      [HookCall.alloc none 4096 4096 false false true, HookCall.destroy 0 4096 true]
      ⟨by decide, by decide, by decide⟩⟩

/-- Evaluation of `extentAlloc` on the successful path. -/
lemma extentAlloc_eval (s : ArenaState) (size alignment : Nat) (z c : Bool)
    (hsz : size ≠ 0)
    (h : isAvailableRange s (align_up s.s_Current alignment) size = true) :
    extentAlloc s none size alignment z c true =
      { ret := some (align_up s.s_Current alignment)
        state :=
          { s with
            s_Current := (align_up s.s_Current alignment + size) % ptrMod
            prot := mmapFixed s.prot (align_up s.s_Current alignment) size PageProt.rw }
        zero := true
        commit := true } := by
  simp [extentAlloc, hsz, h]

/-- C7: in a 1 MiB window reserved at a window-aligned base `B` with the
cursor at `B`: allocating 4096 bytes at alignment 4096 succeeds, returns
`B` and advances the cursor to `B + 4096`; then allocating 4096 bytes at
alignment 8192 succeeds, returns `B + 8192` and advances the cursor to
`B + 12288`, leaving the skipped `[B + 4096, B + 8192)` no longer
available for any later allocation. -/
theorem scenario_alignment_skip (B : Nat) (hdvd : 2 ^ 20 ∣ B)
    (hB : B + 2 ^ 20 < ptrMod) :
    (extentAlloc (initState B (2 ^ 20)) none 4096 4096 false false true).ret
        = some B ∧
      (extentAlloc (initState B (2 ^ 20)) none 4096 4096 false false true).state.s_Current
        = B + 4096 ∧
      (extentAlloc
          (extentAlloc (initState B (2 ^ 20)) none 4096 4096 false false true).state
          none 4096 8192 false false true).ret = some (B + 8192) ∧
      (extentAlloc
          (extentAlloc (initState B (2 ^ 20)) none 4096 4096 false false true).state
          none 4096 8192 false false true).state.s_Current = B + 12288 ∧
      isAvailableRange
        (extentAlloc
          (extentAlloc (initState B (2 ^ 20)) none 4096 4096 false false true).state
          none 4096 8192 false false true).state (B + 4096) 4096 = false := by
  obtain ⟨k, rfl⟩ := hdvd
  rw [ptrMod_eq] at hB
  have e20 : (2 : Nat) ^ 20 = 1048576 := by norm_num
  rw [e20] at hB ⊢
  have a1 : align_up (1048576 * k) 4096 = 1048576 * k := by
    unfold align_up
    rw [ptrMod_eq]
    omega
  have a2 : align_up (1048576 * k + 4096) 8192 = 1048576 * k + 8192 := by
    unfold align_up
    rw [ptrMod_eq]
    omega
  have hcur0 : (initState (1048576 * k) 1048576).s_Current = 1048576 * k := rfl
  have hav1 : isAvailableRange (initState (1048576 * k) 1048576)
      (align_up (initState (1048576 * k) 1048576).s_Current 4096) 4096 = true := by
    rw [hcur0, a1]
    simp only [isAvailableRange, isValidRange, initState, ptrMod_eq, ge_iff_le]
    split
    · next hcontra => exfalso; omega
    · simp only [Bool.and_eq_true, decide_eq_true_eq]
      omega
  have hmod1 : (1048576 * k + 4096) % ptrMod = 1048576 * k + 4096 := by
    rw [ptrMod_eq]; omega
  have e1 : extentAlloc (initState (1048576 * k) 1048576) none 4096 4096 false false true =
      { ret := some (1048576 * k)
        state :=
          { s_Start := 1048576 * k
            s_End := 1048576 * k + 1048576
            s_Current := 1048576 * k + 4096
            prot := mmapFixed (fun _ => PageProt.guard) (1048576 * k) 4096 PageProt.rw }
        zero := true
        commit := true } := by
    rw [extentAlloc_eval _ 4096 4096 false false (by omega) hav1, hcur0, a1, hmod1]
    rfl
  have hcur1 : (ArenaState.mk (1048576 * k) (1048576 * k + 1048576) (1048576 * k + 4096)
      (mmapFixed (fun _ => PageProt.guard) (1048576 * k) 4096 PageProt.rw)).s_Current
      = 1048576 * k + 4096 := rfl
  have hav2 : isAvailableRange
      (ArenaState.mk (1048576 * k) (1048576 * k + 1048576) (1048576 * k + 4096)
        (mmapFixed (fun _ => PageProt.guard) (1048576 * k) 4096 PageProt.rw))
      (align_up (ArenaState.mk (1048576 * k) (1048576 * k + 1048576) (1048576 * k + 4096)
        (mmapFixed (fun _ => PageProt.guard) (1048576 * k) 4096 PageProt.rw)).s_Current
        8192) 4096 = true := by
    rw [hcur1, a2]
    simp only [isAvailableRange, isValidRange, ptrMod_eq, ge_iff_le]
    split
    · next hcontra => exfalso; omega
    · simp only [Bool.and_eq_true, decide_eq_true_eq]
      omega
  have hmod2 : (1048576 * k + 8192 + 4096) % ptrMod = 1048576 * k + 12288 := by
    rw [ptrMod_eq]; omega
  have e2 : extentAlloc
      (ArenaState.mk (1048576 * k) (1048576 * k + 1048576) (1048576 * k + 4096)
        (mmapFixed (fun _ => PageProt.guard) (1048576 * k) 4096 PageProt.rw))
      none 4096 8192 false false true =
      { ret := some (1048576 * k + 8192)
        state := ArenaState.mk (1048576 * k) (1048576 * k + 1048576) (1048576 * k + 12288)
          (mmapFixed
            (mmapFixed (fun _ => PageProt.guard) (1048576 * k) 4096 PageProt.rw)
            (1048576 * k + 8192) 4096 PageProt.rw)
        zero := true
        commit := true } := by
    rw [extentAlloc_eval _ 4096 8192 false false (by omega) hav2, hcur1, a2, hmod2]
  have hskip : ¬(1048576 * k + 12288 ≤ 1048576 * k + 4096) := by omega
  simp only [e1, e2]
  simp [isAvailableRange, hskip]

/-- Witness for C7 at the concrete base `B = 2 ^ 20`. -/
theorem scenario_alignment_skip_witness :
    (2 : Nat) ^ 20 ∣ 2 ^ 20 ∧ (2 : Nat) ^ 20 + 2 ^ 20 < ptrMod ∧
      ((extentAlloc (initState (2 ^ 20) (2 ^ 20)) none 4096 4096 false false true).ret
          = some (2 ^ 20) ∧
        (extentAlloc (initState (2 ^ 20) (2 ^ 20)) none 4096 4096 false false
          true).state.s_Current = 2 ^ 20 + 4096 ∧
        (extentAlloc
            (extentAlloc (initState (2 ^ 20) (2 ^ 20)) none 4096 4096 false false true).state
            none 4096 8192 false false true).ret = some (2 ^ 20 + 8192) ∧
        (extentAlloc
            (extentAlloc (initState (2 ^ 20) (2 ^ 20)) none 4096 4096 false false true).state
            none 4096 8192 false false true).state.s_Current = 2 ^ 20 + 12288 ∧
        isAvailableRange
          (extentAlloc
            (extentAlloc (initState (2 ^ 20) (2 ^ 20)) none 4096 4096 false false true).state
            none 4096 8192 false false true).state (2 ^ 20 + 4096) 4096 = false) :=
  ⟨dvd_refl _, by decide, scenario_alignment_skip (2 ^ 20) (dvd_refl _) (by decide)⟩

end ContinuousArenaMalloc
